import Mathlib

/-!
# Verification of the ble2wled beacon pipeline

A shallow embedding of the core modules of the `ble2wled` repository
(`states.py`, `animation.py`, `colors.py`, `mqtt.py`) together with
theorems settling the specification claims about them.

Modelling conventions:
* Python `float` arithmetic is modelled exactly: by `ℚ` where the code only
  adds, multiplies, divides and compares (beacon life computation, trail
  attenuation), and by `ℝ` where the code exponentiates (`10 ** x` in the
  distance estimate, `colorsys` conversions downstream of it).
* Python `int(x)` (truncation toward zero) is `pyIntQ` / `pyTruncR`.
* Python `%` on integers with a positive modulus agrees with `Int.emod`
  (`%` on `ℤ`); `% 0` raises `ZeroDivisionError` in Python, so operations
  that can hit it return `Option`.
* Python dicts keyed by strings are modelled as association lists (where
  the code iterates over them) or as functions `String → Option _` (where
  it only gets/sets single keys).
-/

set_option linter.unusedVariables false

namespace Ble2Wled

/-- Python `int(x)` on a rational: truncation toward zero. -/
def pyIntQ (q : ℚ) : ℤ := if 0 ≤ q then ⌊q⌋ else ⌈q⌉

/-- Python `int(x)` on a real: truncation toward zero. -/
noncomputable def pyTruncR (x : ℝ) : ℤ := if 0 ≤ x then ⌊x⌋ else ⌈x⌉

theorem pyIntQ_of_nonneg {q : ℚ} (h : 0 ≤ q) : pyIntQ q = ⌊q⌋ := if_pos h

/-! ## `states.py` — `BeaconState`

The wall clock (`time.time()`) is passed in explicitly as a rational
timestamp `now`.  `_beacons` is an association list in insertion order,
mirroring a Python dict of `beacon_id → {"rssi", "last_seen", "life"}`. -/

/-- One value of the `_beacons` dict: `{"rssi": .., "last_seen": .., "life": ..}`. -/
structure BeaconData where
  rssi : ℤ
  last_seen : ℚ
  life : ℚ
  deriving DecidableEq, Repr

/-- The `BeaconState` object: `timeout`, `fade_out` and the `_beacons` dict. -/
structure BeaconState where
  timeout : ℚ
  fade_out : ℚ
  beacons : List (String × BeaconData)
  deriving DecidableEq, Repr

/-- `BeaconState.__init__` (defaults `timeout_seconds=5.0`, `fade_out_seconds=3.0`). -/
def BeaconState.init (timeout_seconds : ℚ := 5) (fade_out_seconds : ℚ := 3) : BeaconState :=
  { timeout := timeout_seconds, fade_out := fade_out_seconds, beacons := [] }

/-- Assignment `d[k] = v` on a dict modelled as an association list:
replace the value if the key is present, else append at the end. -/
def dictSet (l : List (String × BeaconData)) (k : String) (v : BeaconData) :
    List (String × BeaconData) :=
  match l with
  | [] => [(k, v)]
  | (k', v') :: rest =>
      if k' = k then (k, v) :: rest else (k', v') :: dictSet rest k v

/-- `BeaconState.update(beacon_id, rssi)` at wall-clock time `now`. -/
def BeaconState.update (s : BeaconState) (now : ℚ) (beacon_id : String) (rssi : ℤ) :
    BeaconState :=
  { s with beacons := dictSet s.beacons beacon_id { rssi := rssi, last_seen := now, life := 1 } }

/-- The loop body of `BeaconState.snapshot`: recompute `data["life"]`
from `age = now - data["last_seen"]`. -/
def snapshotLife (timeout fade_out now : ℚ) (d : BeaconData) : BeaconData :=
  let age := now - d.last_seen
  if age ≤ timeout then { d with life := 1 }
  else { d with life := max 0 (1 - (age - timeout) / fade_out) }

/-- `BeaconState.snapshot()` at wall-clock time `now`: returns the new
internal state (entries with `life <= 0.0` deleted) and the `active`
mapping of `beacon_id → (rssi, life)`. -/
def BeaconState.snapshot (s : BeaconState) (now : ℚ) :
    BeaconState × List (String × ℤ × ℚ) :=
  let aged := s.beacons.map (fun p => (p.1, snapshotLife s.timeout s.fade_out now p.2))
  let kept := aged.filter (fun p => ¬ p.2.life ≤ 0)
  ({ s with beacons := kept }, kept.map (fun p => (p.1, p.2.rssi, p.2.life)))

/-! ## `animation.py` — `BeaconRunner` and `add_trail` -/

/-- The `BeaconRunner` object: `led_count` and the `positions` dict
(modelled as a function, since the code only gets/sets single keys). -/
structure BeaconRunner where
  led_count : ℕ
  positions : String → Option ℤ

/-- `BeaconRunner.__init__(led_count)`: stores `led_count` and an empty
`positions` dict.  Performs no validation. -/
def BeaconRunner.init (led_count : ℕ) : BeaconRunner :=
  { led_count := led_count, positions := fun _ => none }

/-- `BeaconRunner.next_position(beacon_id)`.  Returns the new index and the
updated runner, or `none` when `(pos + 1) % self.led_count` raises
`ZeroDivisionError` (`led_count == 0`). -/
def BeaconRunner.next_position (r : BeaconRunner) (beacon_id : String) :
    Option (ℤ × BeaconRunner) :=
  if r.led_count = 0 then none
  else
    let pos := (r.positions beacon_id).getD (-1)
    let pos := (pos + 1) % (r.led_count : ℤ)
    some (pos, { r with positions := fun i => if i = beacon_id then some pos else r.positions i })

/-- The result of the `(k+1)`-th of a run of consecutive
`next_position(beacon_id)` calls starting from runner `r`. -/
def callSeq (beacon_id : String) : ℕ → BeaconRunner → Option (ℤ × BeaconRunner)
  | 0, r => r.next_position beacon_id
  | k + 1, r =>
      match r.next_position beacon_id with
      | none => none
      | some (_, r') => callSeq beacon_id k r'

/-- An RGB pixel `[r, g, b]` of the `leds` list, channels as Python ints. -/
structure Pixel where
  r : ℤ
  g : ℤ
  b : ℤ
  deriving DecidableEq, Repr

/-- One iteration of the `for i in range(trail_length)` loop of `add_trail`:
`idx = (position - i) % len(leds)` followed by the three channel updates
`leds[idx][c] = min(255, int(leds[idx][c] + color[c] * fade_factor ** i))`. -/
def trailStep (position : ℤ) (color : Pixel) (fade_factor : ℚ)
    (leds : List Pixel) (i : ℕ) : List Pixel :=
  let idx := ((position - (i : ℤ)) % (leds.length : ℤ)).toNat
  let p := leds.getD idx ⟨0, 0, 0⟩
  let fade := fade_factor ^ i
  leds.set idx
    { r := min 255 (pyIntQ ((p.r : ℚ) + (color.r : ℚ) * fade)),
      g := min 255 (pyIntQ ((p.g : ℚ) + (color.g : ℚ) * fade)),
      b := min 255 (pyIntQ ((p.b : ℚ) + (color.b : ℚ) * fade)) }

/-- `add_trail(leds, position, color, trail_length, fade_factor)`.
`trail_length` is a Python int, so `range(trail_length)` is empty when it
is `≤ 0`; when the loop does run, `(position - i) % len(leds)` raises
`ZeroDivisionError` on an empty buffer (modelled as `none`). -/
def add_trail (leds : List Pixel) (position : ℤ) (color : Pixel)
    (trail_length : ℤ) (fade_factor : ℚ) : Option (List Pixel) :=
  if trail_length ≤ 0 then some leds
  else if leds.length = 0 then none
  else some ((List.range trail_length.toNat).foldl (trailStep position color fade_factor) leds)

/-- Modelled from the claim's words (the reference for claim C2): the same
loop but with each channel set to
`min(255, old + trunc(color[c] * fade_factor ** i))`, i.e. the whole-sum
truncation of the code replaced by truncating only the contribution. -/
def trailStepClaim (position : ℤ) (color : Pixel) (fade_factor : ℚ)
    (leds : List Pixel) (i : ℕ) : List Pixel :=
  let idx := ((position - (i : ℤ)) % (leds.length : ℤ)).toNat
  let p := leds.getD idx ⟨0, 0, 0⟩
  let fade := fade_factor ^ i
  leds.set idx
    { r := min 255 (p.r + pyIntQ ((color.r : ℚ) * fade)),
      g := min 255 (p.g + pyIntQ ((color.g : ℚ) * fade)),
      b := min 255 (p.b + pyIntQ ((color.b : ℚ) * fade)) }

/-- The claim-side trail update built from `trailStepClaim`. -/
def addTrailClaim (leds : List Pixel) (position : ℤ) (color : Pixel)
    (trail_length : ℤ) (fade_factor : ℚ) : List Pixel :=
  (List.range trail_length.toNat).foldl (trailStepClaim position color fade_factor) leds

/-- All three channels of a pixel are nonnegative. -/
def pixNonneg (p : Pixel) : Prop := 0 ≤ p.r ∧ 0 ≤ p.g ∧ 0 ≤ p.b

/-- All three channels of a pixel are in `[0, 255]`. -/
def pixInRange (p : Pixel) : Prop :=
  (0 ≤ p.r ∧ p.r ≤ 255) ∧ (0 ≤ p.g ∧ p.g ≤ 255) ∧ (0 ≤ p.b ∧ p.b ≤ 255)

instance (p : Pixel) : Decidable (pixNonneg p) := by unfold pixNonneg; infer_instance

instance (p : Pixel) : Decidable (pixInRange p) := by unfold pixInRange; infer_instance

/-- The all-zero ten-pixel buffer of the claim's worked example. -/
def zeroBuf10 : List Pixel := List.replicate 10 ⟨0, 0, 0⟩

/-- Modelled from the claim's words (the reference for claim C1): the
visibility assigned to a tracked identity, `1.0` when
`age = now - last_seen ≤ timeout`, else `max(0, 1 - (age - timeout) / fade_out)`. -/
def visibilityClaim (timeout fade_out now last_seen : ℚ) : ℚ :=
  if now - last_seen ≤ timeout then 1
  else max 0 (1 - (now - last_seen - timeout) / fade_out)

/-! ## `mqtt.py` — `EspresenseBeaconListener.on_message`

The handler is modelled as a function from the configured location
filter, the `/`-split topic and the decoded payload to
`Except PyErr (Option (String × ℤ))`: `.ok (some (id, rssi))` means
`BeaconState.update(id, rssi)` is called, `.ok none` means the message is
discarded, `.error e` means a Python exception `e` escapes to the caller. -/

/-- The Python exceptions reachable from `on_message`. -/
inductive PyErr where
  | jsonDecodeError
  | unicodeDecodeError
  | attributeError
  | typeError
  | valueError
  | indexError
  | keyError
  deriving DecidableEq, Repr

/-- A decoded JSON value (`json.loads` result; numbers as exact rationals). -/
inductive Json where
  | null
  | bool (b : Bool)
  | num (q : ℚ)
  | str (s : String)
  | arr (elems : List Json)
  | obj (fields : List (String × Json))

/-- The outcome of `msg.payload.decode()` followed by `json.loads(...)`:
bytes that are not UTF-8 (decode raises `UnicodeDecodeError`), UTF-8 text
that is not JSON (`json.loads` raises `json.JSONDecodeError`), or a JSON
value. -/
inductive RawPayload where
  | notUtf8
  | notJson
  | json (j : Json)

/-- `payload.get(k)` on a JSON object's fields. -/
def jsonGet (fields : List (String × Json)) (k : String) : Option Json :=
  match fields with
  | [] => none
  | (k', v) :: rest => if k' = k then some v else jsonGet rest k

/-- Python truthiness test `not x` on the result of `payload.get("id")`
(`None`, `False`, `0`, `""`, `[]` and `{}` are falsy). -/
def pyFalsy : Option Json → Bool
  | none => true
  | some .null => true
  | some (.bool b) => !b
  | some (.num q) => decide (q = 0)
  | some (.str s) => decide (s = "")
  | some (.arr l) => l.isEmpty
  | some (.obj l) => l.isEmpty

/-- Python `x is None` on the result of `payload.get("rssi")` (an absent
key and a JSON `null` both give Python `None`). -/
def isPyNone : Option Json → Bool
  | none => true
  | some .null => true
  | _ => false

/-- Python `==` between a JSON value and a string (values of other types
are never equal to a string). -/
def jsonEqStr : Json → String → Bool
  | .str t, s => decide (t = s)
  | _, _ => false

/-- Python `int(rssi)` on a JSON value: truncation for numbers, `0`/`1`
for booleans, digit parsing for strings (`ValueError` on failure),
`TypeError` otherwise. -/
def pyIntOfJson : Json → Except PyErr ℤ
  | .num q => .ok (pyIntQ q)
  | .bool b => .ok (if b then 1 else 0)
  | .str s =>
      match s.toInt? with
      | some n => .ok n
      | none => .error .valueError
  | _ => .error .typeError

/-- The body of the `try:` block of `on_message`. -/
def onMessageBody (location_filter : String) (topic_parts : List String)
    (payload : RawPayload) : Except PyErr (Option (String × ℤ)) :=
  if topic_parts.length < 4 then .ok none
  else
    let location := topic_parts.getD (topic_parts.length - 1) ""
    let beacon_id := topic_parts.getD (topic_parts.length - 2) ""
    if location ≠ location_filter then .ok none
    else
      match payload with
      | .notUtf8 => .error .unicodeDecodeError
      | .notJson => .error .jsonDecodeError
      | .json (.obj fields) =>
          let beacon_id_payload := jsonGet fields "id"
          let rssi := jsonGet fields "rssi"
          if pyFalsy beacon_id_payload || isPyNone rssi then .ok none
          else if ! jsonEqStr (beacon_id_payload.getD .null) beacon_id then .ok none
          else
            match pyIntOfJson (rssi.getD .null) with
            | .ok v => .ok (some (beacon_id, v))
            | .error e => .error e
      | .json _ => .error .attributeError

/-- `EspresenseBeaconListener.on_message`: the body wrapped in the
`except` clauses, which catch `json.JSONDecodeError`, `IndexError`,
`KeyError` and `TypeError` (logging and discarding), and nothing else. -/
def on_message (location_filter : String) (topic_parts : List String)
    (payload : RawPayload) : Except PyErr (Option (String × ℤ)) :=
  match onMessageBody location_filter topic_parts payload with
  | .error .jsonDecodeError => .ok none
  | .error .indexError => .ok none
  | .error .keyError => .ok none
  | .error .typeError => .ok none
  | r => r

/-! ## `colors.py` — distance estimate, gradient, `colorsys`, identity hash

`hashlib.sha256` is implemented in full over the UTF-8 bytes of the
identity; the arithmetic downstream of `10 ** x` is over `ℝ`. -/

/-- Reduction to a 32-bit word. -/
def w32 (x : ℕ) : ℕ := x % 4294967296

/-- 32-bit right rotation. -/
def rotr32 (x k : ℕ) : ℕ := w32 ((x >>> k) ||| (x <<< (32 - k)))

/-- SHA-256 round constants (k, in decimal). -/
def sha256K : List ℕ :=
  [1116352408, 1899447441, 3049323471, 3921009573, 961987163,
   1508970993, 2453635748, 2870763221, 3624381080, 310598401,
   607225278, 1426881987, 1925078388, 2162078206, 2614888103,
   3248222580, 3835390401, 4022224774, 264347078, 604807628,
   770255983, 1249150122, 1555081692, 1996064986, 2554220882,
   2821834349, 2952996808, 3210313671, 3336571891, 3584528711,
   113926993, 338241895, 666307205, 773529912, 1294757372,
   1396182291, 1695183700, 1986661051, 2177026350, 2456956037,
   2730485921, 2820302411, 3259730800, 3345764771, 3516065817,
   3600352804, 4094571909, 275423344, 430227734, 506948616,
   659060556, 883997877, 958139571, 1322822218, 1537002063,
   1747873779, 1955562222, 2024104815, 2227730452, 2361852424,
   2428436474, 2756734187, 3204031479, 3329325298]

/-- SHA-256 initial hash state (in decimal). -/
def sha256H0 : List ℕ :=
  [1779033703, 3144134277, 1013904242, 2773480762,
   1359893119, 2600822924, 528734635, 1541459225]

def bigSigma0 (x : ℕ) : ℕ := rotr32 x 2 ^^^ rotr32 x 13 ^^^ rotr32 x 22

def bigSigma1 (x : ℕ) : ℕ := rotr32 x 6 ^^^ rotr32 x 11 ^^^ rotr32 x 25

def smallSigma0 (x : ℕ) : ℕ := rotr32 x 7 ^^^ rotr32 x 18 ^^^ (x >>> 3)

def smallSigma1 (x : ℕ) : ℕ := rotr32 x 17 ^^^ rotr32 x 19 ^^^ (x >>> 10)

def sha256Ch (x y z : ℕ) : ℕ := (x &&& y) ^^^ ((x ^^^ 0xffffffff) &&& z)

def sha256Maj (x y z : ℕ) : ℕ := (x &&& y) ^^^ (x &&& z) ^^^ (y &&& z)

/-- SHA-256 padding: `0x80`, zeros to 56 mod 64, 8-byte big-endian bit length. -/
def sha256pad (msg : List ℕ) : List ℕ :=
  let L := msg.length
  let zeros := (((55 : ℤ) - (L : ℤ)) % 64).toNat
  let bitLen := 8 * L
  msg ++ [0x80] ++ List.replicate zeros 0 ++
    (List.range 8).map (fun i => (bitLen >>> (8 * (7 - i))) % 256)

/-- Big-endian bytes to 32-bit words. -/
def bytesToWords : List ℕ → List ℕ
  | b0 :: b1 :: b2 :: b3 :: rest =>
      ((b0 <<< 24) ||| (b1 <<< 16) ||| (b2 <<< 8) ||| b3) :: bytesToWords rest
  | _ => []

/-- Split a word list into 16-word blocks. -/
def chunk16 (ws : List ℕ) : List (List ℕ) :=
  if h : ws = [] then []
  else ws.take 16 :: chunk16 (ws.drop 16)
termination_by ws.length
decreasing_by
  simp only [List.length_drop]
  have := List.length_pos.mpr h
  omega

/-- Extend a 16-word block to the 64-word message schedule. -/
def schedule (ws : List ℕ) : List ℕ :=
  (List.range 48).foldl
    (fun w j =>
      let t := 16 + j
      w ++ [w32 (w.getD (t - 16) 0 + smallSigma0 (w.getD (t - 15) 0) +
        w.getD (t - 7) 0 + smallSigma1 (w.getD (t - 2) 0))])
    ws

/-- The eight 32-bit working variables of the compression function. -/
structure Sha256State where
  a : ℕ
  b : ℕ
  c : ℕ
  d : ℕ
  e : ℕ
  f : ℕ
  g : ℕ
  h : ℕ

/-- One round of the SHA-256 compression function. -/
def sha256Round (st : Sha256State) (kw : ℕ × ℕ) : Sha256State :=
  let t1 := w32 (st.h + bigSigma1 st.e + sha256Ch st.e st.f st.g + kw.1 + kw.2)
  let t2 := w32 (bigSigma0 st.a + sha256Maj st.a st.b st.c)
  ⟨w32 (t1 + t2), st.a, st.b, st.c, w32 (st.d + t1), st.e, st.f, st.g⟩

/-- Compress one 16-word block into the running hash. -/
def sha256Compress (hs : List ℕ) (block : List ℕ) : List ℕ :=
  let ws := schedule block
  let s0 : Sha256State :=
    ⟨hs.getD 0 0, hs.getD 1 0, hs.getD 2 0, hs.getD 3 0,
     hs.getD 4 0, hs.getD 5 0, hs.getD 6 0, hs.getD 7 0⟩
  let sf := (sha256K.zip ws).foldl sha256Round s0
  [w32 (hs.getD 0 0 + sf.a), w32 (hs.getD 1 0 + sf.b), w32 (hs.getD 2 0 + sf.c),
   w32 (hs.getD 3 0 + sf.d), w32 (hs.getD 4 0 + sf.e), w32 (hs.getD 5 0 + sf.f),
   w32 (hs.getD 6 0 + sf.g), w32 (hs.getD 7 0 + sf.h)]

/-- SHA-256 digest (32 bytes) of a byte string. -/
def sha256Bytes (msg : List ℕ) : List ℕ :=
  let words := (chunk16 (bytesToWords (sha256pad msg))).foldl sha256Compress sha256H0
  (words.map (fun w => [(w >>> 24) % 256, (w >>> 16) % 256, (w >>> 8) % 256, w % 256])).flatten

/-- `beacon_id.encode()`: the UTF-8 bytes of the identity. -/
def utf8Bytes (s : String) : List ℕ := s.toUTF8.toList.map UInt8.toNat

/-- `int(hashlib.sha256(beacon_id.encode()).hexdigest()[:6], 16)`: the
first six hex digits of the digest are its first three bytes. -/
def digestHead6 (beacon_id : String) : ℕ :=
  match sha256Bytes (utf8Bytes beacon_id) with
  | b0 :: b1 :: b2 :: _ => b0 * 65536 + b1 * 256 + b2
  | _ => 0

/-- `estimate_distance_from_rssi(rssi, tx_power=-59, n=2.0)`:
`10 ** ((tx_power - rssi) / (10 * n))`. -/
noncomputable def estimate_distance_from_rssi (rssi : ℤ) (tx_power : ℤ := -59)
    (n : ℝ := 2) : ℝ :=
  (10 : ℝ) ^ (((tx_power : ℝ) - (rssi : ℝ)) / (10 * n))

/-- `lerp(a, b, t)`. -/
def lerp (a b t : ℝ) : ℝ := a + (b - a) * t

/-- `gradient_color(distance, near=0.5, far=10.0)`. -/
noncomputable def gradient_color (distance : ℝ) (near : ℝ := 0.5)
    (far : ℝ := 10) : ℝ × ℝ × ℝ :=
  let d := max near (min far distance)
  let t := (d - near) / (far - near)
  if t < 0.5 then (lerp 0 1 (t / 0.5), 1, 0)
  else (1, lerp 1 0 ((t - 0.5) / 0.5), 0)

/-- `colorsys.rgb_to_hsv` (Python standard library), with Python's
`% 1.0` on floats modelled as `Int.fract`. -/
noncomputable def rgb_to_hsv (r g b : ℝ) : ℝ × ℝ × ℝ :=
  let maxc := max r (max g b)
  let minc := min r (min g b)
  let v := maxc
  if minc = maxc then (0, 0, v)
  else
    let s := (maxc - minc) / maxc
    let rc := (maxc - r) / (maxc - minc)
    let gc := (maxc - g) / (maxc - minc)
    let bc := (maxc - b) / (maxc - minc)
    let h := if r = maxc then bc - gc else if g = maxc then rc - bc else gc - rc
    (Int.fract (h / 6), s, v)

/-- `colorsys.hsv_to_rgb` (Python standard library); `int(h*6.0)` is
truncation toward zero and `i % 6` Python integer modulo.  The final
branch is unreachable (`i % 6 ∈ [0, 6)`). -/
noncomputable def hsv_to_rgb (h s v : ℝ) : ℝ × ℝ × ℝ :=
  if s = 0 then (v, v, v)
  else
    let i0 := pyTruncR (h * 6)
    let f := h * 6 - (i0 : ℝ)
    let p := v * (1 - s)
    let q := v * (1 - s * f)
    let t := v * (1 - s * (1 - f))
    let i := i0 % 6
    if i = 0 then (v, t, p)
    else if i = 1 then (q, v, p)
    else if i = 2 then (p, v, q)
    else if i = 3 then (q, p, v)
    else if i = 4 then (p, t, v)
    else if i = 5 then (v, p, q)
    else (0, 0, 0)

/-- `hue_offset = (int(hash[:6], 16) / 0xFFFFFF) * 0.08`. -/
noncomputable def hueOffsetOf (beacon_id : String) : ℝ :=
  ((digestHead6 beacon_id : ℝ) / 16777215) * 0.08

/-- `ble_beacon_to_rgb(beacon_id, rssi, life)`. -/
noncomputable def ble_beacon_to_rgb (beacon_id : String) (rssi : ℤ)
    (life : ℝ) : ℤ × ℤ × ℤ :=
  let distance := estimate_distance_from_rssi rssi
  let c := gradient_color distance
  let hsv := rgb_to_hsv c.1 c.2.1 c.2.2
  let h := Int.fract (hsv.1 + hueOffsetOf beacon_id)
  let rgb := hsv_to_rgb h hsv.2.1 (hsv.2.2 * life)
  (pyTruncR (rgb.1 * 255), pyTruncR (rgb.2.1 * 255), pyTruncR (rgb.2.2 * 255))

/-! ## Theorems about `BeaconRunner` (claims C4, C7, C9) -/

theorem emod_add_left_emod (a b n : ℤ) : (a % n + b) % n = (a + b) % n := by
  rw [Int.add_emod (a % n) b n, Int.emod_emod_of_dvd a dvd_rfl, ← Int.add_emod]

theorem callSeq_formula (beacon_id : String) (n : ℕ) (hn : 1 ≤ n) :
    ∀ (k : ℕ) (r : BeaconRunner), r.led_count = n →
      (callSeq beacon_id k r).map Prod.fst =
        some (((r.positions beacon_id).getD (-1) + (k : ℤ) + 1) % (n : ℤ)) := by
  have hne : n ≠ 0 := by omega
  intro k
  induction k with
  | zero =>
    intro r hr
    simp only [callSeq, BeaconRunner.next_position, hr, if_neg hne, Option.map_some]
    norm_num
  | succ k ih =>
    intro r hr
    simp only [callSeq, BeaconRunner.next_position, hr, if_neg hne]
    rw [ih _ rfl]
    simp only [Option.some.injEq]
    rw [if_pos trivial, Option.getD_some, add_assoc, emod_add_left_emod]
    congr 1
    push_cast
    ring

/-- C4: for every `trackLength = n ≥ 1` and every identity,
`next_position` returns `(previous index + 1) mod n` (a never-seen
identity having previous index `-1`), and hence the `(k+1)`-th of a run of
consecutive calls on a fresh runner returns `k mod n`: the cyclic
deterministic sequence `0, 1, …, n-1, 0, 1, …`. -/
theorem next_position_cyclic (n : ℕ) (beacon_id : String) (hn : 1 ≤ n) :
    (∀ r : BeaconRunner, r.led_count = n →
      (r.next_position beacon_id).map Prod.fst =
        some (((r.positions beacon_id).getD (-1) + 1) % (n : ℤ))) ∧
    (∀ k : ℕ, (callSeq beacon_id k (BeaconRunner.init n)).map Prod.fst =
        some ((k : ℤ) % (n : ℤ))) := by
  have hne : n ≠ 0 := by omega
  constructor
  · intro r hr
    simp [BeaconRunner.next_position, hr, if_neg hne]
  · intro k
    rw [callSeq_formula beacon_id n hn k (BeaconRunner.init n) rfl]
    simp only [BeaconRunner.init, Option.getD_none, Option.some.injEq]
    ring_nf

/-- Witness for C4 at `n = 3`, `k = 4`: the fifth call returns `4 % 3 = 1`. -/
theorem next_position_cyclic_witness :
    (callSeq "beacon_1" 4 (BeaconRunner.init 3)).map Prod.fst = some 1 := by
  have h := (next_position_cyclic 3 "beacon_1" (by norm_num)).2 4
  simpa using h

/-- C9: advancing identity A never changes the value that the next
`next_position` call for a different identity B returns. -/
theorem next_position_independent (r : BeaconRunner) (A B : String) (hAB : A ≠ B)
    (p : ℤ) (r' : BeaconRunner) (h : r.next_position A = some (p, r')) :
    (r'.next_position B).map Prod.fst = (r.next_position B).map Prod.fst := by
  by_cases h0 : r.led_count = 0
  · simp [BeaconRunner.next_position, h0] at h
  · have hBA : ¬ B = A := fun e => hAB e.symm
    simp only [BeaconRunner.next_position, if_neg h0] at h
    injection h with h1
    rw [Prod.mk.injEq] at h1
    obtain ⟨-, hr'⟩ := h1
    subst hr'
    simp [BeaconRunner.next_position, if_neg h0, hBA]

/-- Witness for C9: after advancing "a" on a fresh 5-LED runner, the next
value for "b" is the same as it would have been before. -/
theorem next_position_independent_witness :
    (((⟨5, fun i => if i = "a" then some 0 else none⟩ : BeaconRunner).next_position
        "b").map Prod.fst) = (((BeaconRunner.init 5).next_position "b").map Prod.fst) := by
  refine next_position_independent (BeaconRunner.init 5) "a" "b" (by decide) 0 _ ?_
  simp [BeaconRunner.next_position, BeaconRunner.init]

/-- Counterexample to C7: the constructor performs no validation, so a
runner with a zero-length track is constructed successfully, and the
modulo-by-zero failure happens at the first `next_position` call at
runtime instead of at construction time. -/
theorem init_zero_track_constructs_then_fails :
    (BeaconRunner.init 0).next_position "beacon_1" = none := rfl

/-- C7 amended: construction always succeeds (no precondition check); a
`next_position` call fails (ZeroDivisionError) exactly when the runner was
constructed with `led_count = 0`, and never fails for `led_count ≥ 1`. -/
theorem next_position_failure_iff_zero_track (r : BeaconRunner) (beacon_id : String) :
    (1 ≤ r.led_count → (r.next_position beacon_id).isSome = true) ∧
    (r.led_count = 0 → r.next_position beacon_id = none) := by
  constructor
  · intro h1
    have hne : r.led_count ≠ 0 := by omega
    simp [BeaconRunner.next_position, if_neg hne]
  · intro h0
    simp [BeaconRunner.next_position, h0]

/-- Witness for C7 amended, at `led_count = 1` and `led_count = 0`. -/
theorem next_position_failure_iff_zero_track_witness :
    ((BeaconRunner.init 1).next_position "x").isSome = true ∧
    (BeaconRunner.init 0).next_position "x" = none :=
  ⟨(next_position_failure_iff_zero_track (BeaconRunner.init 1) "x").1 (Nat.le_refl 1),
   (next_position_failure_iff_zero_track (BeaconRunner.init 0) "x").2 rfl⟩

/-! ## Theorems about `add_trail` (claims C2, C5, C10) -/

/-- C10: with `trail_length ≤ 0` the loop `for i in range(trail_length)`
never runs: `add_trail` raises nothing and leaves the buffer unchanged;
and for a nonempty buffer no exception is raised for any `fade_factor`
(in particular no `ValueError` for a `fade_factor` outside `[0, 1]`). -/
theorem add_trail_nonpositive_trail_noop (leds : List Pixel) (position : ℤ)
    (color : Pixel) (trail_length : ℤ) (fade_factor : ℚ) :
    (trail_length ≤ 0 →
      add_trail leds position color trail_length fade_factor = some leds) ∧
    (1 ≤ leds.length →
      (add_trail leds position color trail_length fade_factor).isSome = true) := by
  constructor
  · intro ht
    simp [add_trail, if_pos ht]
  · intro hl
    by_cases ht : trail_length ≤ 0
    · simp [add_trail, if_pos ht]
    · have hne : leds.length ≠ 0 := by omega
      simp [add_trail, if_neg ht, hne]

/-- Witness for C10: a no-op call with negative `trail_length`, and an
exception-free call with `fade_factor` far outside `[0, 1]`. -/
theorem add_trail_nonpositive_trail_noop_witness :
    add_trail [⟨5, 5, 5⟩] 3 ⟨1, 2, 3⟩ (-1) 7 = some [⟨5, 5, 5⟩] ∧
    (add_trail [⟨5, 5, 5⟩] 3 ⟨1, 2, 3⟩ 5 (-3)).isSome = true :=
  ⟨(add_trail_nonpositive_trail_noop [⟨5, 5, 5⟩] 3 ⟨1, 2, 3⟩ (-1) 7).1 (by norm_num),
   (add_trail_nonpositive_trail_noop [⟨5, 5, 5⟩] 3 ⟨1, 2, 3⟩ 5 (-3)).2 (by norm_num)⟩

theorem pyIntQ_nonneg {q : ℚ} (h : 0 ≤ q) : 0 ≤ pyIntQ q := by
  rw [pyIntQ_of_nonneg h]
  exact Int.floor_nonneg.mpr h

theorem pyIntQ_intCast_add {m : ℤ} {x : ℚ} (hm : 0 ≤ m) (hx : 0 ≤ x) :
    pyIntQ ((m : ℚ) + x) = m + pyIntQ x := by
  have hm' : (0 : ℚ) ≤ (m : ℚ) := by exact_mod_cast hm
  rw [pyIntQ_of_nonneg (add_nonneg hm' hx), pyIntQ_of_nonneg hx, Int.floor_int_add]

theorem getD_pixNonneg {leds : List Pixel} (h : ∀ p ∈ leds, pixNonneg p) (idx : ℕ) :
    pixNonneg (leds.getD idx ⟨0, 0, 0⟩) := by
  rcases lt_or_ge idx leds.length with hlt | hge
  · rw [leds.getD_eq_getElem ⟨0, 0, 0⟩ hlt]
    exact h _ (leds.getElem_mem hlt)
  · rw [leds.getD_eq_default ⟨0, 0, 0⟩ hge]
    exact ⟨le_refl 0, le_refl 0, le_refl 0⟩

theorem trailStep_eq_claim (position : ℤ) (color : Pixel) (f : ℚ) (hf : 0 ≤ f)
    (hc : pixNonneg color) (leds : List Pixel) (hleds : ∀ p ∈ leds, pixNonneg p)
    (i : ℕ) :
    trailStep position color f leds i = trailStepClaim position color f leds i := by
  simp only [trailStep, trailStepClaim]
  have hp := getD_pixNonneg hleds (((position - (i : ℤ)) % (leds.length : ℤ)).toNat)
  have hfi : (0 : ℚ) ≤ f ^ i := pow_nonneg hf i
  have hcast : ∀ c : ℤ, 0 ≤ c → (0 : ℚ) ≤ (c : ℚ) * f ^ i := fun c hcz =>
    mul_nonneg (by exact_mod_cast hcz) hfi
  rw [pyIntQ_intCast_add hp.1 (hcast _ hc.1), pyIntQ_intCast_add hp.2.1 (hcast _ hc.2.1),
    pyIntQ_intCast_add hp.2.2 (hcast _ hc.2.2)]

theorem trailStep_preserves_nonneg (position : ℤ) (color : Pixel) (f : ℚ) (hf : 0 ≤ f)
    (hc : pixNonneg color) (leds : List Pixel) (hleds : ∀ p ∈ leds, pixNonneg p)
    (i : ℕ) : ∀ p ∈ trailStep position color f leds i, pixNonneg p := by
  intro p hp
  rcases List.mem_or_eq_of_mem_set hp with hmem | hset
  · exact hleds p hmem
  · subst hset
    have hold := getD_pixNonneg hleds (((position - (i : ℤ)) % (leds.length : ℤ)).toNat)
    have hfi : (0 : ℚ) ≤ f ^ i := pow_nonneg hf i
    have key : ∀ a c : ℤ, 0 ≤ a → 0 ≤ c →
        0 ≤ min 255 (pyIntQ ((a : ℚ) + (c : ℚ) * f ^ i)) := by
      intro a c ha hcz
      refine le_min (by norm_num) (pyIntQ_nonneg ?_)
      have : (0 : ℚ) ≤ (c : ℚ) * f ^ i := mul_nonneg (by exact_mod_cast hcz) hfi
      have ha' : (0 : ℚ) ≤ (a : ℚ) := by exact_mod_cast ha
      linarith
    exact ⟨key _ _ hold.1 hc.1, key _ _ hold.2.1 hc.2.1, key _ _ hold.2.2 hc.2.2⟩

theorem getD_pixUb {leds : List Pixel} (h : ∀ p ∈ leds, pixInRange p) (idx : ℕ) :
    (leds.getD idx ⟨0, 0, 0⟩).r ≤ 255 ∧ (leds.getD idx ⟨0, 0, 0⟩).g ≤ 255 ∧
      (leds.getD idx ⟨0, 0, 0⟩).b ≤ 255 := by
  rcases lt_or_ge idx leds.length with hlt | hge
  · rw [leds.getD_eq_getElem ⟨0, 0, 0⟩ hlt]
    obtain ⟨h1, h2, h3⟩ := h _ (leds.getElem_mem hlt)
    exact ⟨h1.2, h2.2, h3.2⟩
  · rw [leds.getD_eq_default ⟨0, 0, 0⟩ hge]
    exact ⟨by norm_num, by norm_num, by norm_num⟩

theorem trailStep_preserves_range (position : ℤ) (color : Pixel) (f : ℚ) (hf : 0 ≤ f)
    (hc : pixNonneg color) (leds : List Pixel) (hleds : ∀ p ∈ leds, pixInRange p)
    (i : ℕ) : ∀ p ∈ trailStep position color f leds i, pixInRange p := by
  intro p hp
  have hnn : ∀ q ∈ leds, pixNonneg q := fun q hq =>
    ⟨(hleds q hq).1.1, (hleds q hq).2.1.1, (hleds q hq).2.2.1⟩
  have hlow := trailStep_preserves_nonneg position color f hf hc leds hnn i p hp
  rcases List.mem_or_eq_of_mem_set hp with hmem | hset
  · exact hleds p hmem
  · subst hset
    exact ⟨⟨hlow.1, min_le_left _ _⟩, ⟨hlow.2.1, min_le_left _ _⟩,
      ⟨hlow.2.2, min_le_left _ _⟩⟩

theorem foldl_trailStep_nonneg (position : ℤ) (color : Pixel) (f : ℚ) (hf : 0 ≤ f)
    (hc : pixNonneg color) :
    ∀ (l : List ℕ) (leds : List Pixel), (∀ p ∈ leds, pixNonneg p) →
      ∀ p ∈ l.foldl (trailStep position color f) leds, pixNonneg p := by
  intro l
  induction l with
  | nil => intro leds hleds; simpa using hleds
  | cons a l ih =>
    intro leds hleds
    exact ih _ (trailStep_preserves_nonneg position color f hf hc leds hleds a)

theorem foldl_trailStep_range (position : ℤ) (color : Pixel) (f : ℚ) (hf : 0 ≤ f)
    (hc : pixNonneg color) :
    ∀ (l : List ℕ) (leds : List Pixel), (∀ p ∈ leds, pixInRange p) →
      ∀ p ∈ l.foldl (trailStep position color f) leds, pixInRange p := by
  intro l
  induction l with
  | nil => intro leds hleds; simpa using hleds
  | cons a l ih =>
    intro leds hleds
    exact ih _ (trailStep_preserves_range position color f hf hc leds hleds a)

theorem foldl_trailStep_eq_claim (position : ℤ) (color : Pixel) (f : ℚ) (hf : 0 ≤ f)
    (hc : pixNonneg color) :
    ∀ (l : List ℕ) (leds : List Pixel), (∀ p ∈ leds, pixNonneg p) →
      l.foldl (trailStep position color f) leds =
        l.foldl (trailStepClaim position color f) leds := by
  intro l
  induction l with
  | nil => intro leds _; rfl
  | cons a l ih =>
    intro leds hleds
    simp only [List.foldl_cons]
    rw [← trailStep_eq_claim position color f hf hc leds hleds a,
      ih _ (trailStep_preserves_nonneg position color f hf hc leds hleds a)]

/-- Counterexample to C2: with a negative `fade_factor` (allowed by the
claim's "every fade_factor") the code truncates the whole sum
`int(old + color*fade)` while the claim truncates only the contribution,
and the two differ: on buffer `[[1,0,0]]` with color `(1,0,0)`,
`trail_length = 2`, `fade_factor = -1/2`, the code leaves red `1` while
the claim's formula predicts `2`. -/
theorem add_trail_negative_fade_mismatch :
    add_trail [⟨1, 0, 0⟩] 0 ⟨1, 0, 0⟩ 2 (-1/2) = some [⟨1, 0, 0⟩] ∧
    addTrailClaim [⟨1, 0, 0⟩] 0 ⟨1, 0, 0⟩ 2 (-1/2) = [⟨2, 0, 0⟩] := by
  constructor
  · simp [add_trail, trailStep, List.range_succ, pyIntQ]
    norm_num
  · simp [addTrailClaim, trailStepClaim, List.range_succ, pyIntQ]
    norm_num [Int.ceil_neg]

/-- C2 amended: for every LED buffer of length `L ≥ 1` with channels in
`[0,255]`, every color with channels in `[0,255]`, every
`trail_length ≥ 0` and every `fade_factor ≥ 0` (the restriction the
counterexample forces), `add_trail` computes exactly the claim's per-index
update `buffer[idx][c] = min(255, old + trunc(color[c] * fade_factor^i))`
for `i in [0, trail_length)` at `idx = (position - i) mod L`, truncating
toward zero, with wrapped indices accumulating when `trail_length > L`. -/
theorem add_trail_matches_claim_formula (leds : List Pixel) (position : ℤ)
    (color : Pixel) (trail_length : ℤ) (fade_factor : ℚ)
    (hL : 1 ≤ leds.length) (hleds : ∀ p ∈ leds, pixInRange p)
    (hc : pixInRange color) (ht : 0 ≤ trail_length) (hf : 0 ≤ fade_factor) :
    add_trail leds position color trail_length fade_factor =
      some (addTrailClaim leds position color trail_length fade_factor) := by
  have hnn : ∀ p ∈ leds, pixNonneg p := fun q hq =>
    ⟨(hleds q hq).1.1, (hleds q hq).2.1.1, (hleds q hq).2.2.1⟩
  have hcn : pixNonneg color := ⟨hc.1.1, hc.2.1.1, hc.2.2.1⟩
  by_cases h0 : trail_length ≤ 0
  · have : trail_length.toNat = 0 := by omega
    simp [add_trail, if_pos h0, addTrailClaim, this]
  · have hne : leds.length ≠ 0 := by omega
    unfold add_trail addTrailClaim
    rw [if_neg h0, if_neg hne]
    exact congrArg some (foldl_trailStep_eq_claim position color fade_factor hf hcn _ leds hnn)

/-- Witness for C2 amended at the claim's own example: position 0, color
`(100,0,0)`, `trail_length` 3, `fade_factor` 0.5 on a zeroed 10-pixel
buffer gives red 100 at index 0, 50 at index 9 and 25 at index 8. -/
theorem add_trail_matches_claim_formula_witness :
    add_trail zeroBuf10 0 ⟨100, 0, 0⟩ 3 (1/2) =
      some (addTrailClaim zeroBuf10 0 ⟨100, 0, 0⟩ 3 (1/2)) ∧
    addTrailClaim zeroBuf10 0 ⟨100, 0, 0⟩ 3 (1/2) =
      [⟨100, 0, 0⟩, ⟨0, 0, 0⟩, ⟨0, 0, 0⟩, ⟨0, 0, 0⟩, ⟨0, 0, 0⟩,
       ⟨0, 0, 0⟩, ⟨0, 0, 0⟩, ⟨0, 0, 0⟩, ⟨25, 0, 0⟩, ⟨50, 0, 0⟩] := by
  constructor
  · exact add_trail_matches_claim_formula zeroBuf10 0 ⟨100, 0, 0⟩ 3 (1/2)
      (by decide) (by decide) (by decide) (by decide) (by norm_num)
  · simp [addTrailClaim, trailStepClaim, List.range_succ, pyIntQ, zeroBuf10,
      List.replicate]
    norm_num [List.set]

/-- Counterexample to C5: with a negative `fade_factor` (allowed by the
claim's "any add_trail call") a channel ends below 0: on an in-range
all-zero one-pixel buffer, color `(100,0,0)`, `trail_length = 2`,
`fade_factor = -2` leaves red `-100`. -/
theorem add_trail_negative_fade_breaks_range :
    add_trail [⟨0, 0, 0⟩] 0 ⟨100, 0, 0⟩ 2 (-2) = some [⟨-100, 0, 0⟩] := by
  simp [add_trail, trailStep, List.range_succ, pyIntQ]
  norm_num [Int.ceil_neg]

/-- C5 amended: for every buffer with channels in `[0,255]`, every color
with channels in `[0,255]` and every `fade_factor ≥ 0` (the restriction
the counterexample forces), any completed `add_trail` call leaves every
channel of every pixel an integer in `[0,255]`: additive blending clamps
at 255 and never goes below 0. -/
theorem add_trail_preserves_channel_range (leds : List Pixel) (position : ℤ)
    (color : Pixel) (trail_length : ℤ) (fade_factor : ℚ) (out : List Pixel)
    (hleds : ∀ p ∈ leds, pixInRange p) (hc : pixInRange color)
    (hf : 0 ≤ fade_factor)
    (h : add_trail leds position color trail_length fade_factor = some out) :
    ∀ p ∈ out, pixInRange p := by
  have hcn : pixNonneg color := ⟨hc.1.1, hc.2.1.1, hc.2.2.1⟩
  unfold add_trail at h
  by_cases h0 : trail_length ≤ 0
  · rw [if_pos h0] at h
    obtain rfl := Option.some.inj h
    exact hleds
  · rw [if_neg h0] at h
    by_cases hne : leds.length = 0
    · rw [if_pos hne] at h
      cases h
    · rw [if_neg hne] at h
      obtain rfl := Option.some.inj h
      exact foldl_trailStep_range position color fade_factor hf hcn _ leds hleds

/-- Witness for C5 amended at the claim's clamp example: starting channel
200 plus color 100 at `fade_factor` 1.0 clamps to exactly 255. -/
theorem add_trail_preserves_channel_range_witness :
    add_trail [⟨200, 0, 0⟩] 0 ⟨100, 0, 0⟩ 1 1 = some [⟨255, 0, 0⟩] ∧
    ∀ p ∈ [(⟨255, 0, 0⟩ : Pixel)], pixInRange p := by
  have h : add_trail [⟨200, 0, 0⟩] 0 ⟨100, 0, 0⟩ 1 1 = some [⟨255, 0, 0⟩] := by
    simp [add_trail, trailStep, List.range_succ, pyIntQ]
  exact ⟨h, add_trail_preserves_channel_range [⟨200, 0, 0⟩] 0 ⟨100, 0, 0⟩ 1 1
    [⟨255, 0, 0⟩] (by decide) (by decide) (by norm_num) h⟩

/-! ## Theorems about `BeaconState.snapshot` (claim C1) -/

theorem keyval_unique :
    ∀ (l : List (String × BeaconData)), (l.map Prod.fst).Nodup →
      ∀ {a : String} {b c : BeaconData}, (a, b) ∈ l → (a, c) ∈ l → b = c := by
  intro l
  induction l with
  | nil => intro _ a b c hb; cases hb
  | cons hd tl ih =>
    intro hnd a b c hb hc
    simp only [List.map_cons, List.nodup_cons] at hnd
    rcases List.mem_cons.mp hb with hb1 | hb1 <;>
      rcases List.mem_cons.mp hc with hc1 | hc1
    · rw [← hc1] at hb1
      exact congrArg Prod.snd hb1
    · exact absurd (List.mem_map_of_mem Prod.fst hc1)
        (by rw [← hb1] at hnd; simpa using hnd.1)
    · exact absurd (List.mem_map_of_mem Prod.fst hb1)
        (by rw [← hc1] at hnd; simpa using hnd.1)
    · exact ih hnd.2 hb1 hc1

theorem snapshotLife_eq_claim (timeout fade_out now : ℚ) (d : BeaconData) :
    snapshotLife timeout fade_out now d =
      { d with life := visibilityClaim timeout fade_out now d.last_seen } := by
  unfold snapshotLife visibilityClaim
  by_cases h : now - d.last_seen ≤ timeout <;> simp [h]

theorem visibilityClaim_nonneg (timeout fade_out now last_seen : ℚ) :
    0 ≤ visibilityClaim timeout fade_out now last_seen := by
  unfold visibilityClaim
  by_cases h : now - last_seen ≤ timeout <;> simp [h]

/-- C1: for every tracked identity, `snapshot` computes the visibility
`1.0` when `age = now - last_seen ≤ timeout` and
`max(0, 1 - (age - timeout)/fade_out)` otherwise; an identity whose
computed visibility is exactly 0 is deleted from internal storage during
the call and is absent from the returned mapping, while an identity with
positive visibility appears in the returned mapping paired with its
stored signal strength and that visibility. -/
theorem snapshot_visibility_spec (s : BeaconState) (now : ℚ)
    (hfade : 0 < s.fade_out) (hkeys : (s.beacons.map Prod.fst).Nodup)
    (beacon_id : String) (d : BeaconData) (hmem : (beacon_id, d) ∈ s.beacons) :
    (visibilityClaim s.timeout s.fade_out now d.last_seen = 0 →
      (∀ d' : BeaconData, (beacon_id, d') ∉ (s.snapshot now).1.beacons) ∧
      (∀ rv : ℤ × ℚ, (beacon_id, rv) ∉ (s.snapshot now).2)) ∧
    (0 < visibilityClaim s.timeout s.fade_out now d.last_seen →
      (beacon_id, d.rssi, visibilityClaim s.timeout s.fade_out now d.last_seen) ∈
        (s.snapshot now).2) := by
  set vis := visibilityClaim s.timeout s.fade_out now d.last_seen with hvis
  constructor
  · intro h0
    have hkept : ∀ d' : BeaconData,
        (beacon_id, d') ∉ (s.snapshot now).1.beacons := by
      intro d' hd'
      simp only [BeaconState.snapshot, List.mem_filter, List.mem_map] at hd'
      obtain ⟨⟨⟨a, d0⟩, hmem0, heq⟩, hlife⟩ := hd'
      obtain ⟨ha, hd0⟩ := Prod.mk.injEq _ _ _ _ ▸ heq
      subst ha
      have hd0d : d0 = d := keyval_unique s.beacons hkeys hmem0 hmem
      subst hd0d
      rw [snapshotLife_eq_claim, ← hvis] at hd0
      rw [← hd0] at hlife
      simp only [h0, decide_eq_true_eq] at hlife
      exact hlife le_rfl
    refine ⟨hkept, ?_⟩
    intro rv hrv
    simp only [BeaconState.snapshot, List.mem_map] at hrv
    obtain ⟨⟨a, d'⟩, hk, heq⟩ := hrv
    obtain ⟨ha, -⟩ := Prod.mk.injEq _ _ _ _ ▸ heq
    subst ha
    exact hkept d' (by simpa [BeaconState.snapshot] using hk)
  · intro hpos
    simp only [BeaconState.snapshot, List.mem_map]
    refine ⟨(beacon_id, { d with life := vis }), ?_, rfl⟩
    simp only [List.mem_filter, List.mem_map]
    refine ⟨⟨(beacon_id, d), hmem, ?_⟩, ?_⟩
    · rw [snapshotLife_eq_claim, ← hvis]
    · simpa using not_le.mpr hpos

/-- Witness for C1: a state with `timeout = 1`, `fade_out = 2`, one beacon
last seen at time 0, read at time 2: visibility `1/2`, so the beacon is
returned with its stored rssi `-50` and visibility `1/2`. -/
theorem snapshot_visibility_spec_witness :
    (0 : ℚ) < 2 ∧
    ("a", (-50 : ℤ), (1/2 : ℚ)) ∈
      ((⟨1, 2, [("a", ⟨-50, 0, 1⟩)]⟩ : BeaconState).snapshot 2).2 := by
  have hv : visibilityClaim 1 2 2 0 = 1/2 := by norm_num [visibilityClaim]
  refine ⟨by norm_num, ?_⟩
  have h := (snapshot_visibility_spec ⟨1, 2, [("a", ⟨-50, 0, 1⟩)]⟩ 2
    (by norm_num) (by simp) "a" ⟨-50, 0, 1⟩ (by simp)).2
  rw [hv] at h
  exact h (by norm_num)

/-! ## Theorems about `on_message` (claims C3, C6) -/

/-- Counterexample to C3: a message with matching topic and location whose
payload is valid JSON but not an object — the number `5`, which certainly
lacks an `id` field — makes `payload.get("id")` raise `AttributeError`,
which none of the `except` clauses catch: the exception escapes to the
caller instead of the message being discarded. -/
theorem on_message_nonobject_payload_raises :
    on_message "zoneX" ["espresense", "devices", "beaconA", "zoneX"]
      (.json (.num 5)) = .error .attributeError := rfl

/-- C3 amended: malformed messages with a short topic, a non-matching
location, a JSON-syntax-error payload, or a JSON-object payload with a
missing `id`/`rssi` field or a payload `id` different from the topic
identity are discarded without any exception (`.ok none`); however a
payload that is valid JSON whose top level is not an object raises an
uncaught `AttributeError` (and a non-UTF-8 payload an uncaught
`UnicodeDecodeError`); in every malformed case `BeaconState.update` is
never called, so the `BeaconState` is unchanged. -/
theorem getD_str_norm (l : List String) (i : ℕ) :
    l.getD i "" = (l[i]?).getD "" := by
  simp [List.getD]

theorem on_message_malformed_discard (location_filter : String)
    (topic_parts : List String) (payload : RawPayload) :
    (topic_parts.length < 4 →
      on_message location_filter topic_parts payload = .ok none) ∧
    (topic_parts.getD (topic_parts.length - 1) "" ≠ location_filter →
      on_message location_filter topic_parts payload = .ok none) ∧
    (payload = .notJson →
      on_message location_filter topic_parts payload = .ok none) ∧
    (∀ fields, payload = .json (.obj fields) →
      jsonGet fields "id" = none ∨ isPyNone (jsonGet fields "rssi") = true →
      on_message location_filter topic_parts payload = .ok none) ∧
    (∀ fields v, payload = .json (.obj fields) → jsonGet fields "id" = some v →
      jsonEqStr v (topic_parts.getD (topic_parts.length - 2) "") = false →
      on_message location_filter topic_parts payload = .ok none) ∧
    (∀ j, payload = .json j → (∀ fields, j ≠ .obj fields) →
      ¬ topic_parts.length < 4 →
      topic_parts.getD (topic_parts.length - 1) "" = location_filter →
      on_message location_filter topic_parts payload = .error .attributeError) ∧
    ((topic_parts.length < 4 ∨
      topic_parts.getD (topic_parts.length - 1) "" ≠ location_filter ∨
      payload = .notUtf8 ∨ payload = .notJson ∨
      (∃ fields, payload = .json (.obj fields) ∧
        (jsonGet fields "id" = none ∨ isPyNone (jsonGet fields "rssi") = true)) ∨
      (∃ fields v, payload = .json (.obj fields) ∧ jsonGet fields "id" = some v ∧
        jsonEqStr v (topic_parts.getD (topic_parts.length - 2) "") = false) ∨
      (∃ j, payload = .json j ∧ ∀ fields, j ≠ .obj fields)) →
      ∀ u : String × ℤ,
        on_message location_filter topic_parts payload ≠ .ok (some u)) := by
  have hshort : topic_parts.length < 4 →
      on_message location_filter topic_parts payload = .ok none := by
    intro h
    simp [on_message, onMessageBody, h]
  have hlocm : ¬ topic_parts.length < 4 →
      ¬ topic_parts.getD (topic_parts.length - 1) "" = location_filter →
      on_message location_filter topic_parts payload = .ok none := by
    intro h4 h
    rw [getD_str_norm] at h
    simp [on_message, onMessageBody, h4, h]
  have hnotjson : ¬ topic_parts.length < 4 →
      topic_parts.getD (topic_parts.length - 1) "" = location_filter →
      payload = .notJson →
      on_message location_filter topic_parts payload = .ok none := by
    rintro h4 hl rfl
    rw [getD_str_norm] at hl
    simp [on_message, onMessageBody, h4, hl]
  have hnotutf : ¬ topic_parts.length < 4 →
      topic_parts.getD (topic_parts.length - 1) "" = location_filter →
      payload = .notUtf8 →
      on_message location_filter topic_parts payload = .error .unicodeDecodeError := by
    rintro h4 hl rfl
    rw [getD_str_norm] at hl
    simp [on_message, onMessageBody, h4, hl]
  have hmissing : ∀ fields, payload = .json (.obj fields) →
      jsonGet fields "id" = none ∨ isPyNone (jsonGet fields "rssi") = true →
      on_message location_filter topic_parts payload = .ok none := by
    rintro fields rfl hmr
    by_cases h4 : topic_parts.length < 4
    · exact hshort h4
    · by_cases hl : topic_parts.getD (topic_parts.length - 1) "" = location_filter
      · have hcond : (pyFalsy (jsonGet fields "id") ||
            isPyNone (jsonGet fields "rssi")) = true := by
          rcases hmr with h | h
          · simp [h, pyFalsy]
          · simp [h]
        have hl' := hl
        rw [getD_str_norm] at hl'
        simp [on_message, onMessageBody, h4, hl', hcond]
      · exact hlocm h4 hl
  have hmismatch : ∀ fields v, payload = .json (.obj fields) →
      jsonGet fields "id" = some v →
      jsonEqStr v (topic_parts.getD (topic_parts.length - 2) "") = false →
      on_message location_filter topic_parts payload = .ok none := by
    rintro fields v rfl hid hne
    by_cases h4 : topic_parts.length < 4
    · exact hshort h4
    · by_cases hl : topic_parts.getD (topic_parts.length - 1) "" = location_filter
      · have hl' := hl
        rw [getD_str_norm] at hl'
        have hne' := hne
        rw [getD_str_norm] at hne'
        by_cases hfal : (pyFalsy (jsonGet fields "id") ||
            isPyNone (jsonGet fields "rssi")) = true
        · simp [on_message, onMessageBody, h4, hl', hfal]
        · simp [on_message, onMessageBody, h4, hl', hfal, hid, hne']
      · exact hlocm h4 hl
  have hattr : ∀ j, payload = .json j → (∀ fields, j ≠ .obj fields) →
      ¬ topic_parts.length < 4 →
      topic_parts.getD (topic_parts.length - 1) "" = location_filter →
      on_message location_filter topic_parts payload = .error .attributeError := by
    rintro j rfl hobj h4 hl
    rw [getD_str_norm] at hl
    cases j with
    | obj fields => exact absurd rfl (hobj fields)
    | null => simp [on_message, onMessageBody, h4, hl]
    | bool b => simp [on_message, onMessageBody, h4, hl]
    | num q => simp [on_message, onMessageBody, h4, hl]
    | str t => simp [on_message, onMessageBody, h4, hl]
    | arr l => simp [on_message, onMessageBody, h4, hl]
  refine ⟨hshort, ?_, ?_, hmissing, hmismatch, hattr, ?_⟩
  · intro h
    by_cases h4 : topic_parts.length < 4
    · exact hshort h4
    · exact hlocm h4 h
  · intro h
    by_cases h4 : topic_parts.length < 4
    · exact hshort h4
    · by_cases hl : topic_parts.getD (topic_parts.length - 1) "" = location_filter
      · exact hnotjson h4 hl h
      · exact hlocm h4 hl
  · intro hmal u
    by_cases h4 : topic_parts.length < 4
    · rw [hshort h4]; simp
    · by_cases hl : topic_parts.getD (topic_parts.length - 1) "" = location_filter
      · rcases hmal with h | h | h | h | ⟨fields, hp, hmr⟩ |
          ⟨fields, v, hp, hid, hne⟩ | ⟨j, hp, hobj⟩
        · exact absurd h h4
        · exact absurd hl h
        · rw [hnotutf h4 hl h]; simp
        · rw [hnotjson h4 hl h]; simp
        · rw [hmissing fields hp hmr]; simp
        · rw [hmismatch fields v hp hid hne]; simp
        · rw [hattr j hp hobj h4 hl]; simp
      · rw [hlocm h4 hl]; simp

/-- Witness for C3 amended, discharging each hypothesis at concrete
malformed messages: a three-segment topic, a wrong location, a
JSON-object payload without an `rssi` field, and a non-object payload. -/
theorem on_message_malformed_discard_witness :
    on_message "balkon" ["a", "b", "c"] (.json (.num 1)) = .ok none ∧
    on_message "balkon" ["espresense", "devices", "x", "kitchen"]
      (.json (.num 1)) = .ok none ∧
    on_message "balkon" ["espresense", "devices", "x", "balkon"]
      .notJson = .ok none ∧
    on_message "balkon" ["espresense", "devices", "x", "balkon"]
      (.json (.obj [("id", .str "x")])) = .ok none ∧
    on_message "balkon" ["espresense", "devices", "x", "balkon"]
      (.json (.obj [("id", .str "y"), ("rssi", .num 1)])) = .ok none ∧
    on_message "balkon" ["espresense", "devices", "x", "balkon"]
      (.json (.str "hello")) = .error .attributeError ∧
    on_message "balkon" ["espresense", "devices", "x", "balkon"]
      .notUtf8 ≠ .ok (some ("x", -50)) := by
  refine ⟨?_, ?_, ?_, ?_, ?_, ?_, ?_⟩
  · exact (on_message_malformed_discard "balkon" ["a", "b", "c"]
      (.json (.num 1))).1 (by norm_num)
  · exact (on_message_malformed_discard "balkon"
      ["espresense", "devices", "x", "kitchen"] (.json (.num 1))).2.1 (by simp)
  · exact (on_message_malformed_discard "balkon"
      ["espresense", "devices", "x", "balkon"] .notJson).2.2.1 rfl
  · exact (on_message_malformed_discard "balkon"
      ["espresense", "devices", "x", "balkon"]
      (.json (.obj [("id", .str "x")]))).2.2.2.1 [("id", .str "x")] rfl
      (by simp [jsonGet, isPyNone])
  · exact (on_message_malformed_discard "balkon"
      ["espresense", "devices", "x", "balkon"]
      (.json (.obj [("id", .str "y"), ("rssi", .num 1)]))).2.2.2.2.1
      [("id", .str "y"), ("rssi", .num 1)] (.str "y") rfl
      (by simp [jsonGet]) (by simp [jsonEqStr])
  · exact (on_message_malformed_discard "balkon"
      ["espresense", "devices", "x", "balkon"] (.json (.str "hello"))).2.2.2.2.2.1
      (.str "hello") rfl (by intro fields h; cases h) (by norm_num) (by simp)
  · exact (on_message_malformed_discard "balkon"
      ["espresense", "devices", "x", "balkon"] .notUtf8).2.2.2.2.2.2
      (Or.inr (Or.inr (Or.inl rfl))) ("x", -50)

/-- C6: a message on topic `espresense/devices/beaconA/zoneX` (the
spec's `root` is the two-segment base topic `espresense/devices`) with
payload `{"id": "beaconA", "rssi": -50}` and location filter `zoneX`
causes `update("beaconA", -50)`, after which an immediate snapshot
contains `beaconA` with signal strength `-50` and visibility `1.0`; with
filter `zoneY` no update happens and the snapshot stays empty; a
fractional `rssi` of `-50.5` is truncated to `-50`. -/
theorem ingest_end_to_end :
    on_message "zoneX" ["espresense", "devices", "beaconA", "zoneX"]
      (.json (.obj [("id", .str "beaconA"), ("rssi", .num (-50))])) =
      .ok (some ("beaconA", -50)) ∧
    ((BeaconState.init.update 0 "beaconA" (-50)).snapshot 0).2 =
      [("beaconA", -50, 1)] ∧
    on_message "zoneY" ["espresense", "devices", "beaconA", "zoneX"]
      (.json (.obj [("id", .str "beaconA"), ("rssi", .num (-50))])) = .ok none ∧
    (BeaconState.init.snapshot 0).2 = [] ∧
    on_message "zoneX" ["espresense", "devices", "beaconA", "zoneX"]
      (.json (.obj [("id", .str "beaconA"), ("rssi", .num (-101/2))])) =
      .ok (some ("beaconA", -50)) := by
  refine ⟨?_, ?_, ?_, ?_, ?_⟩
  · simp [on_message, onMessageBody, jsonGet, pyFalsy, isPyNone, jsonEqStr,
      pyIntOfJson, pyIntQ]
    norm_num [Int.ceil_neg]
  · simp [BeaconState.init, BeaconState.update, BeaconState.snapshot, dictSet,
      snapshotLife]
  · simp [on_message, onMessageBody]
  · simp [BeaconState.init, BeaconState.snapshot]
  · simp [on_message, onMessageBody, jsonGet, pyFalsy, isPyNone, jsonEqStr,
      pyIntOfJson, pyIntQ]
    norm_num [Int.ceil_neg]

/-! ## Theorems about `colors.py` (claim C8) -/

theorem estimate_distance_pos (rssi : ℤ) : 0 < estimate_distance_from_rssi rssi := by
  unfold estimate_distance_from_rssi
  exact Real.rpow_pos_of_pos (by norm_num) _

theorem gradient_shape (d : ℝ) :
    ∃ r g, gradient_color d = (r, g, 0) ∧
      0 ≤ r ∧ r ≤ 1 ∧ 0 ≤ g ∧ g ≤ 1 ∧ (r = 1 ∨ g = 1) := by
  have h1 : (0.5 : ℝ) ≤ max 0.5 (min 10 d) := le_max_left _ _
  have h2 : max (0.5 : ℝ) (min 10 d) ≤ 10 := max_le (by norm_num) (min_le_left _ _)
  have ht0 : 0 ≤ (max (0.5 : ℝ) (min 10 d) - 0.5) / (10 - 0.5) :=
    div_nonneg (by linarith) (by norm_num)
  have ht1 : (max (0.5 : ℝ) (min 10 d) - 0.5) / (10 - 0.5) ≤ 1 := by
    rw [div_le_one (by norm_num)]
    linarith
  simp only [gradient_color, lerp]
  by_cases hc : (max (0.5 : ℝ) (min 10 d) - 0.5) / (10 - 0.5) < 0.5
  · rw [if_pos hc]
    have hq0 : 0 ≤ (max (0.5 : ℝ) (min 10 d) - 0.5) / (10 - 0.5) / 0.5 :=
      div_nonneg ht0 (by norm_num)
    have hq1 : (max (0.5 : ℝ) (min 10 d) - 0.5) / (10 - 0.5) / 0.5 ≤ 1 := by
      rw [div_le_one (by norm_num)]
      linarith
    exact ⟨_, _, rfl, by linarith, by linarith, by norm_num, by norm_num, Or.inr rfl⟩
  · rw [if_neg hc]
    have hx : (0.5 : ℝ) ≤ (max (0.5 : ℝ) (min 10 d) - 0.5) / (10 - 0.5) := not_lt.mp hc
    have hq0 : 0 ≤ ((max (0.5 : ℝ) (min 10 d) - 0.5) / (10 - 0.5) - 0.5) / 0.5 :=
      div_nonneg (by linarith) (by norm_num)
    have hq1 : ((max (0.5 : ℝ) (min 10 d) - 0.5) / (10 - 0.5) - 0.5) / 0.5 ≤ 1 := by
      rw [div_le_one (by norm_num)]
      linarith
    exact ⟨_, _, rfl, by norm_num, by norm_num, by linarith, by linarith, Or.inl rfl⟩

theorem rgb_to_hsv_shape (r g : ℝ) (hr0 : 0 ≤ r) (hr1 : r ≤ 1) (hg0 : 0 ≤ g)
    (hg1 : g ≤ 1) (h1 : r = 1 ∨ g = 1) :
    ∃ h, rgb_to_hsv r g 0 = (h, 1, 1) ∧ 0 ≤ h ∧ h < 1 := by
  have hmax : max r (max g 0) = 1 := by
    rcases h1 with rfl | rfl
    · exact max_eq_left (max_le hg1 (by norm_num))
    · rw [show max (1 : ℝ) 0 = 1 from max_eq_left (by norm_num)]
      exact max_eq_right hr1
  have hmin : min r (min g 0) = 0 := by
    rw [min_eq_right hg0]
    exact min_eq_right hr0
  simp only [rgb_to_hsv]
  rw [hmax, hmin, if_neg (by norm_num : ¬ (0 : ℝ) = 1),
    show ((1 : ℝ) - 0) / 1 = 1 by norm_num]
  exact ⟨_, rfl, Int.fract_nonneg _, Int.fract_lt_one _⟩

theorem hsv_to_rgb_bounds (h s v : ℝ) (hh : 0 ≤ h) (hs0 : 0 ≤ s) (hs1 : s ≤ 1)
    (hv0 : 0 ≤ v) (hv1 : v ≤ 1) :
    (0 ≤ (hsv_to_rgb h s v).1 ∧ (hsv_to_rgb h s v).1 ≤ 1) ∧
    (0 ≤ (hsv_to_rgb h s v).2.1 ∧ (hsv_to_rgb h s v).2.1 ≤ 1) ∧
    (0 ≤ (hsv_to_rgb h s v).2.2 ∧ (hsv_to_rgb h s v).2.2 ≤ 1) := by
  simp only [hsv_to_rgb]
  by_cases hz : s = 0
  · rw [if_pos hz]
    exact ⟨⟨hv0, hv1⟩, ⟨hv0, hv1⟩, hv0, hv1⟩
  · rw [if_neg hz]
    have h6 : 0 ≤ h * 6 := by linarith
    have hi0 : pyTruncR (h * 6) = ⌊h * 6⌋ := if_pos h6
    have hf0 : 0 ≤ h * 6 - ((pyTruncR (h * 6) : ℤ) : ℝ) := by
      rw [hi0]
      exact sub_nonneg.mpr (Int.floor_le _)
    have hf1 : h * 6 - ((pyTruncR (h * 6) : ℤ) : ℝ) ≤ 1 := by
      rw [hi0]
      have := Int.lt_floor_add_one (h * 6)
      linarith
    have hp : 0 ≤ v * (1 - s) ∧ v * (1 - s) ≤ 1 :=
      ⟨mul_nonneg hv0 (by linarith), by nlinarith⟩
    have hq : 0 ≤ v * (1 - s * (h * 6 - ((pyTruncR (h * 6) : ℤ) : ℝ))) ∧
        v * (1 - s * (h * 6 - ((pyTruncR (h * 6) : ℤ) : ℝ))) ≤ 1 := by
      have hsf0 : 0 ≤ s * (h * 6 - ((pyTruncR (h * 6) : ℤ) : ℝ)) := mul_nonneg hs0 hf0
      have hsf1 : s * (h * 6 - ((pyTruncR (h * 6) : ℤ) : ℝ)) ≤ 1 := mul_le_one₀ hs1 hf0 hf1
      exact ⟨mul_nonneg hv0 (by linarith), by nlinarith⟩
    have htt : 0 ≤ v * (1 - s * (1 - (h * 6 - ((pyTruncR (h * 6) : ℤ) : ℝ)))) ∧
        v * (1 - s * (1 - (h * 6 - ((pyTruncR (h * 6) : ℤ) : ℝ)))) ≤ 1 := by
      have hg0 : 0 ≤ s * (1 - (h * 6 - ((pyTruncR (h * 6) : ℤ) : ℝ))) :=
        mul_nonneg hs0 (by linarith)
      have hg1 : s * (1 - (h * 6 - ((pyTruncR (h * 6) : ℤ) : ℝ))) ≤ 1 :=
        mul_le_one₀ hs1 (by linarith) (by linarith)
      exact ⟨mul_nonneg hv0 (by linarith), by nlinarith⟩
    split_ifs
    · exact ⟨⟨hv0, hv1⟩, ⟨htt.1, htt.2⟩, hp.1, hp.2⟩
    · exact ⟨⟨hq.1, hq.2⟩, ⟨hv0, hv1⟩, hp.1, hp.2⟩
    · exact ⟨⟨hp.1, hp.2⟩, ⟨hv0, hv1⟩, hq.1, hq.2⟩
    · exact ⟨⟨hq.1, hq.2⟩, ⟨hp.1, hp.2⟩, hv0, hv1⟩
    · exact ⟨⟨hp.1, hp.2⟩, ⟨htt.1, htt.2⟩, hv0, hv1⟩
    · exact ⟨⟨hv0, hv1⟩, ⟨hp.1, hp.2⟩, hq.1, hq.2⟩
    · exact ⟨⟨le_refl 0, by norm_num⟩, ⟨le_refl 0, by norm_num⟩, le_refl 0, by norm_num⟩

theorem pyTruncR_scale_bounds (x : ℝ) (h0 : 0 ≤ x) (h1 : x ≤ 1) :
    0 ≤ pyTruncR (x * 255) ∧ pyTruncR (x * 255) ≤ 255 := by
  have hx : 0 ≤ x * 255 := mul_nonneg h0 (by norm_num)
  unfold pyTruncR
  rw [if_pos hx]
  refine ⟨Int.floor_nonneg.mpr hx, ?_⟩
  have hle : x * 255 ≤ 255 := by nlinarith
  calc ⌊x * 255⌋ ≤ ⌊(255 : ℝ)⌋ := Int.floor_le_floor hle
  _ = 255 := by norm_num

/-- C8: for every identity, every integer signal strength and every
visibility in `[0, 1]`, the distance estimate
`10 ^ ((tx_power - rssi) / (10 n))` is a (finite) positive real and
`ble_beacon_to_rgb` returns an RGB triple of integers in `[0, 255]`
without any failure. -/
theorem ble_beacon_to_rgb_total_bounds (beacon_id : String) (rssi : ℤ)
    (life : ℝ) (hl0 : 0 ≤ life) (hl1 : life ≤ 1) :
    0 < estimate_distance_from_rssi rssi ∧
    (0 ≤ (ble_beacon_to_rgb beacon_id rssi life).1 ∧
      (ble_beacon_to_rgb beacon_id rssi life).1 ≤ 255) ∧
    (0 ≤ (ble_beacon_to_rgb beacon_id rssi life).2.1 ∧
      (ble_beacon_to_rgb beacon_id rssi life).2.1 ≤ 255) ∧
    (0 ≤ (ble_beacon_to_rgb beacon_id rssi life).2.2 ∧
      (ble_beacon_to_rgb beacon_id rssi life).2.2 ≤ 255) := by
  refine ⟨estimate_distance_pos rssi, ?_⟩
  obtain ⟨r, g, hc, hr0, hr1, hg0, hg1, h1⟩ :=
    gradient_shape (estimate_distance_from_rssi rssi)
  obtain ⟨h, hhsv, hh0, hh1⟩ := rgb_to_hsv_shape r g hr0 hr1 hg0 hg1 h1
  have key : ble_beacon_to_rgb beacon_id rssi life =
      (pyTruncR ((hsv_to_rgb (Int.fract (h + hueOffsetOf beacon_id)) 1 life).1 * 255),
       pyTruncR ((hsv_to_rgb (Int.fract (h + hueOffsetOf beacon_id)) 1 life).2.1 * 255),
       pyTruncR ((hsv_to_rgb (Int.fract (h + hueOffsetOf beacon_id)) 1 life).2.2 * 255)) := by
    simp only [ble_beacon_to_rgb, hc, hhsv, one_mul]
  rw [key]
  have hb := hsv_to_rgb_bounds (Int.fract (h + hueOffsetOf beacon_id)) 1 life
    (Int.fract_nonneg _) (by norm_num) (by norm_num) hl0 hl1
  exact ⟨pyTruncR_scale_bounds _ hb.1.1 hb.1.2,
    pyTruncR_scale_bounds _ hb.2.1.1 hb.2.1.2,
    pyTruncR_scale_bounds _ hb.2.2.1 hb.2.2.2⟩

/-- Witness for C8 at identity "beacon_1", signal strength -50 and
visibility 1/2. -/
theorem ble_beacon_to_rgb_total_bounds_witness :
    0 < estimate_distance_from_rssi (-50) ∧
    (0 ≤ (ble_beacon_to_rgb "beacon_1" (-50) (1/2)).1 ∧
      (ble_beacon_to_rgb "beacon_1" (-50) (1/2)).1 ≤ 255) ∧
    (0 ≤ (ble_beacon_to_rgb "beacon_1" (-50) (1/2)).2.1 ∧
      (ble_beacon_to_rgb "beacon_1" (-50) (1/2)).2.1 ≤ 255) ∧
    (0 ≤ (ble_beacon_to_rgb "beacon_1" (-50) (1/2)).2.2 ∧
      (ble_beacon_to_rgb "beacon_1" (-50) (1/2)).2.2 ≤ 255) :=
  ble_beacon_to_rgb_total_bounds "beacon_1" (-50) (1/2) (by norm_num) (by norm_num)

end Ble2Wled
